import Mathlib

/-!
Verification development for the structural MRI pipeline repository.

The repository consists of two Python scripts:
- scripts/structural_pipeline.py: discovers BIDS subjects, conditionally wires
  brain extraction (bet), tissue segmentation (fast) and cortical
  reconstruction (recon-all) nodes into a nipype workflow, and computes
  per-subject tissue volumes from segmentation output.
- scripts/summarize_dataset.py: reads participants.tsv, joins it against
  per-subject metrics TSVs on disk, and writes an aggregate CSV.

The definitions below are a shallow embedding of those scripts.  Filesystem
state, PATH lookup and NIfTI image contents are explicit parameters; machine
floats are modelled as rationals (the claims under verification concern exact
equality of counts and products, not rounding).
-/

namespace StructuralPipeline

/-- Model of the filesystem state seen by structural_pipeline.py:
`rootEntries` are the names of the entries directly under the BIDS root that
the glob pattern "sub-*" is matched against, `isDir` tells which of those are
directories (the `p.is_dir()` test), `fileExists` is `Path.exists` on a path
string, and `resolve` is `Path.resolve` (absolute-path resolution). -/
structure FileSystem where
  rootEntries : List String
  isDir : String → Bool
  fileExists : String → Bool
  resolve : String → String

/-- Joining of path components with "/", as `Path / component` does. -/
def pathJoin (a b : String) : String := a ++ "/" ++ b

/-- Path of the T1w image of a subject: `bids_root / sid / "anat" / f"{sid}_T1w.nii.gz"`,
shared by the subject-discovery loop (line 49) and `get_t1w_path` (line 84). -/
def t1wRelPath (bids_root sid : String) : String :=
  pathJoin (pathJoin (pathJoin bids_root sid) "anat") (sid ++ "_T1w.nii.gz")

/-- Character-list test that `name` begins with the pattern characters;
used to embed the glob pattern "sub-*", which matches exactly the entry
names beginning with "sub-". -/
def charsStartWith : List Char → List Char → Bool
  | _, [] => true
  | [], _ :: _ => false
  | c :: cs, p :: ps => (c = p) && charsStartWith cs ps

/-- Matching of an entry name against the glob pattern "sub-*". -/
def subGlobMatch (name : String) : Bool :=
  charsStartWith name.data "sub-".data

/-- Embedding of line 46:
`all_subjects = sorted([p.name for p in bids_root.glob("sub-*") if p.is_dir()])`.
Python `sorted` on strings is lexicographic; it is modelled by insertion sort
under the lexicographic order on `String`. -/
def all_subjects (fs : FileSystem) : List String :=
  List.insertionSort (· ≤ ·)
    (fs.rootEntries.filter (fun n => subGlobMatch n && fs.isDir n))

/-- Embedding of lines 47-51: the subjects kept are those of `all_subjects`
whose T1w candidate file exists. -/
def subjects (fs : FileSystem) (bids_root : String) : List String :=
  (all_subjects fs).filter (fun sid => fs.fileExists (t1wRelPath bids_root sid))

/-- Embedding of lines 53-54: `if not subjects: raise RuntimeError(...)`. -/
def discoverSubjects (fs : FileSystem) (bids_root : String) :
    Except String (List String) :=
  let subs := subjects fs bids_root
  if subs = [] then Except.error "No BIDS subjects with T1w images found"
  else Except.ok subs

/-- Embedding of `get_t1w_path` (lines 82-87): build the T1w path, raise
FileNotFoundError when it does not exist, otherwise return the resolved
path. Errors are the raised exception message. -/
def get_t1w_path (fs : FileSystem) (subject_id bids_root : String) :
    Except String String :=
  let t1w := t1wRelPath bids_root subject_id
  if fs.fileExists t1w then Except.ok (fs.resolve t1w)
  else Except.error ("Missing T1w image for " ++ subject_id)

/-- Tool availability: `HAS_FSL_BET = shutil.which("bet") is not None` (line 105).
`which` models `shutil.which`, returning the located binary path when found. -/
def HAS_FSL_BET (which : String → Option String) : Bool := (which "bet").isSome

/-- Tool availability: `HAS_FSL_FAST = shutil.which("fast") is not None` (line 122). -/
def HAS_FSL_FAST (which : String → Option String) : Bool := (which "fast").isSome

/-- Tool availability: `HAS_FREESURFER = shutil.which("recon-all") is not None` (line 138). -/
def HAS_FREESURFER (which : String → Option String) : Bool := (which "recon-all").isSome

/-- Names of the workflow nodes created by the script. -/
inductive NodeId where
  | inputnode
  | t1w_resolver
  | bet
  | fast
  | reconall
  | volume_extraction
deriving DecidableEq

/-- One entry of the `connections` list: source node, destination node, and
the connected output/input field names. -/
structure Connection where
  src : NodeId
  dst : NodeId
  srcField : String
  dstField : String
deriving DecidableEq

/-- Embedding of the `connections` list built in lines 208-248.  The script
assigns `bet`, `fast` and `reconall` to `None` when the corresponding binary
is absent, so `hasBet` stands for `bet is not None`, `hasFast` for
`fast is not None` and `hasReconAll` for `reconall is not None`. -/
def connections (hasBet hasFast hasReconAll : Bool) : List Connection :=
  [⟨.inputnode, .t1w_resolver, "subject_id", "subject_id"⟩]
  ++ (if hasBet then [⟨.t1w_resolver, .bet, "t1w", "in_file"⟩] else [])
  ++ (if hasFast then
        (if hasBet then [⟨.bet, .fast, "out_file", "in_files"⟩]
         else [⟨.t1w_resolver, .fast, "t1w", "in_files"⟩])
        ++ [⟨.fast, .volume_extraction, "partial_volume_files", "seg_files"⟩]
      else [])
  ++ [⟨.inputnode, .volume_extraction, "subject_id", "subject_id"⟩]
  ++ (if hasReconAll then
        [⟨.t1w_resolver, .reconall, "t1w", "T1_files"⟩,
         ⟨.inputnode, .reconall, "subject_id", "subject_id"⟩]
      else [])

/-- Nodes of the workflow after `wf.connect(connections)`: every node that
appears as a source or destination of some connection. -/
def wfNodes (conns : List Connection) : List NodeId :=
  conns.foldl (fun acc c => acc ++ [c.src, c.dst]) []

/-- The nodes that invoke an external tool binary. -/
def externalToolNodes : List NodeId := [.bet, .fast, .reconall]

/-- Number of distinct external-tool nodes present in the workflow. -/
def externalCount (conns : List Connection) : Nat :=
  (externalToolNodes.filter (fun n => n ∈ wfNodes conns)).length

/-- Top level of the pipeline-construction script after the imports: subject
discovery runs first and raising the RuntimeError aborts the script, so the
connections list is only built when discovery succeeds. -/
def pipeline_script (fs : FileSystem) (which : String → Option String)
    (bids_root : String) : Except String (List String × List Connection) :=
  match discoverSubjects fs bids_root with
  | Except.error e => Except.error e
  | Except.ok subs =>
      Except.ok (subs, connections (HAS_FSL_BET which) (HAS_FSL_FAST which)
        (HAS_FREESURFER which))

/-- Model of a loaded NIfTI image as seen by `compute_tissue_volumes`:
`voxels` is the flattened array of voxel values from `img.get_fdata()` and
`zooms` the header zooms from `img.header.get_zooms()`. -/
structure NiftiImage where
  voxels : List ℚ
  zooms : List ℚ
deriving DecidableEq

/-- Embedding of `voxel_volume = np.prod(img.header.get_zooms())` (line 172). -/
def voxel_volume (img : NiftiImage) : ℚ := img.zooms.prod

/-- Embedding of `np.sum(data == label)` (line 175): the number of voxels
whose value equals the label. -/
def labelCount (img : NiftiImage) (label : ℚ) : Nat :=
  (img.voxels.filter (fun v => v = label)).length

/-- The `tissue_labels` dictionary of lines 161-165. -/
def tissue_labels : List (String × ℚ) := [("CSF", 0), ("GM", 1), ("WM", 2)]

/-- Dictionary assignment `volumes[name] = value` on a string-keyed map. -/
def dictSet (d : String → Option ℚ) (k : String) (v : ℚ) : String → Option ℚ :=
  fun x => if x = k then some v else d x

/-- Body of the inner loop of `compute_tissue_volumes` (lines 174-175) for one
segmentation file: for each tissue label, set the dictionary entry to the
voxel count of that label times the voxel volume of this image. -/
def applySegFile (vols : String → Option ℚ) (img : NiftiImage) :
    String → Option ℚ :=
  tissue_labels.foldl
    (fun vols nl => dictSet vols nl.1 ((labelCount img nl.2 : ℚ) * voxel_volume img))
    vols

/-- Row written into the per-subject tissue-volumes TSV: the subject id and
the tissue-name-to-volume entries of the `volumes` dictionary. -/
structure TissueRow where
  subject_id : String
  volumes : String → Option ℚ

/-- Embedding of `compute_tissue_volumes` (lines 155-185): loop over the
segmentation files updating the volumes dictionary, write the single-row
TSV `output_dir / f"{subject_id}_tissue_volumes.tsv"`, and return the path
of that TSV.  The first component is the row written, the second the
returned path. -/
def compute_tissue_volumes (seg_files : List NiftiImage) (subject_id : String)
    (output_dir : String) : TissueRow × String :=
  let volumes := seg_files.foldl applySegFile (fun _ => none)
  (⟨subject_id, volumes⟩, pathJoin output_dir (subject_id ++ "_tissue_volumes.tsv"))

end StructuralPipeline

namespace SummarizeDataset

/-- One row of participants.tsv as loaded by pandas.  `participant_id` is the
value of the required column; the other three columns may be absent from the
table, in which case `row.get(col, "n/a")` yields the default. -/
structure ParticipantRow where
  participant_id : String
  age : Option String
  sex : Option String
  dominant_hand : Option String
deriving DecidableEq

/-- First data row of a successfully parsed per-subject metrics TSV.  A field
is `none` when the column is missing, in which case
`mdf.iloc[0].get(col, float("nan"))` yields NaN. -/
structure MetricsRow where
  CSF : Option ℚ
  GM : Option ℚ
  WM : Option ℚ
deriving DecidableEq

/-- Value of a CSF/GM/WM field of a summary row: the key can be absent from
the row dictionary, hold the string "n/a" (set by the except branch), or hold
a float (`val none` standing for NaN). -/
inductive MetricCell where
  | absent
  | na
  | val (v : Option ℚ)
deriving DecidableEq

/-- One row appended to `rows` by the loop of lines 36-69. -/
structure SummaryRow where
  participant_id : String
  age : String
  sex : String
  dominant_hand : String
  metrics_exists : Bool
  CSF : MetricCell
  GM : MetricCell
  WM : MetricCell
  qc_pass : Bool
deriving DecidableEq

/-- Filesystem state seen by summarize_dataset.py. `metrics` maps a subject id
to the state of its `{sub_id}_tissue_volumes.tsv` under the metrics directory:
`none` when the file does not exist, `some (Except.error ())` when it exists
but reading, indexing the first row or converting a value raises an
exception, and `some (Except.ok m)` when it parses with first row `m`. -/
structure SummaryFS where
  participantsExists : Bool
  participantsRows : List ParticipantRow
  metrics : String → Option (Except Unit MetricsRow)

/-- Body of the participants loop (lines 36-69) for one participant: build
`subject_data` with the participant columns defaulted to "n/a", the
`metrics_exists` flag, the CSF/GM/WM fields filled from the metrics TSV when
it exists (all three set to "n/a" when any exception is raised), and
`qc_pass` copied from `metrics_exists`. -/
def summarizeRow (metrics : String → Option (Except Unit MetricsRow))
    (row : ParticipantRow) : SummaryRow :=
  let metricsEntry := metrics row.participant_id
  let base : SummaryRow :=
    { participant_id := row.participant_id
      age := row.age.getD "n/a"
      sex := row.sex.getD "n/a"
      dominant_hand := row.dominant_hand.getD "n/a"
      metrics_exists := metricsEntry.isSome
      CSF := MetricCell.absent
      GM := MetricCell.absent
      WM := MetricCell.absent
      qc_pass := false }
  let withMetrics : SummaryRow :=
    match metricsEntry with
    | some (Except.ok m) =>
        { base with CSF := MetricCell.val m.CSF, GM := MetricCell.val m.GM
                    WM := MetricCell.val m.WM }
    | some (Except.error _) =>
        { base with CSF := MetricCell.na, GM := MetricCell.na, WM := MetricCell.na }
    | none => base
  { withMetrics with qc_pass := withMetrics.metrics_exists }

/-- Observable outcome of running summarize_dataset.py: whether the summary
directory was created, whether the FileNotFoundError of line 27 was raised,
and the rows of dataset_summary.csv when it was written. -/
structure ScriptOutcome where
  summaryDirCreated : Bool
  raisedFileNotFound : Bool
  writtenCsv : Option (List SummaryRow)
deriving DecidableEq

/-- Embedding of the whole script: `SUMMARY_DIR.mkdir` runs first (line 18),
then the existence check on participants.tsv raises FileNotFoundError
(lines 26-27), otherwise the loop appends one row per participant and the
summary CSV is written (lines 36-75). -/
def summarize_dataset (fs : SummaryFS) : ScriptOutcome :=
  if fs.participantsExists then
    { summaryDirCreated := true
      raisedFileNotFound := false
      writtenCsv := some (fs.participantsRows.foldl
        (fun acc row => acc ++ [summarizeRow fs.metrics row]) []) }
  else
    { summaryDirCreated := true
      raisedFileNotFound := true
      writtenCsv := none }

end SummarizeDataset

/-! Theorems. -/

namespace StructuralPipeline

theorem applySegFile_CSF (vols : String → Option ℚ) (img : NiftiImage) :
    applySegFile vols img "CSF"
      = some ((labelCount img 0 : ℚ) * voxel_volume img) := rfl

theorem applySegFile_GM (vols : String → Option ℚ) (img : NiftiImage) :
    applySegFile vols img "GM"
      = some ((labelCount img 1 : ℚ) * voxel_volume img) := rfl

theorem applySegFile_WM (vols : String → Option ℚ) (img : NiftiImage) :
    applySegFile vols img "WM"
      = some ((labelCount img 2 : ℚ) * voxel_volume img) := rfl

/-- C1: for every subject and every non-empty list of segmentation files
(written `pre ++ [lastImg]`), `compute_tissue_volumes` writes a TSV row whose
CSF, GM and WM entries are the number of voxels equal to the tissue labels 0,
1 and 2 respectively, multiplied by the voxel volume derived from the image
header, together with the subject id, and it returns the path of that TSV. -/
theorem compute_tissue_volumes_spec (segs pre : List NiftiImage)
    (lastImg : NiftiImage) (hseg : segs = pre ++ [lastImg]) (sid dir : String) :
    (compute_tissue_volumes segs sid dir).1.volumes "CSF"
        = some ((labelCount lastImg 0 : ℚ) * voxel_volume lastImg)
    ∧ (compute_tissue_volumes segs sid dir).1.volumes "GM"
        = some ((labelCount lastImg 1 : ℚ) * voxel_volume lastImg)
    ∧ (compute_tissue_volumes segs sid dir).1.volumes "WM"
        = some ((labelCount lastImg 2 : ℚ) * voxel_volume lastImg)
    ∧ (compute_tissue_volumes segs sid dir).1.subject_id = sid
    ∧ (compute_tissue_volumes segs sid dir).2
        = dir ++ "/" ++ (sid ++ "_tissue_volumes.tsv") := by
  subst hseg
  refine ⟨?_, ?_, ?_, rfl, rfl⟩ <;>
    simp only [compute_tissue_volumes, List.foldl_append, List.foldl_cons,
      List.foldl_nil]
  · exact applySegFile_CSF _ _
  · exact applySegFile_GM _ _
  · exact applySegFile_WM _ _

theorem compute_tissue_volumes_spec_witness :
    ([⟨[0, 1, 1, 2], [2, 3]⟩] : List NiftiImage)
        = [] ++ [(⟨[0, 1, 1, 2], [2, 3]⟩ : NiftiImage)]
    ∧ (compute_tissue_volumes [⟨[0, 1, 1, 2], [2, 3]⟩] "sub-01" "metrics").1.volumes "CSF"
        = some ((labelCount ⟨[0, 1, 1, 2], [2, 3]⟩ 0 : ℚ)
            * voxel_volume ⟨[0, 1, 1, 2], [2, 3]⟩) :=
  ⟨rfl,
    (compute_tissue_volumes_spec [⟨[0, 1, 1, 2], [2, 3]⟩] [] ⟨[0, 1, 1, 2], [2, 3]⟩
      rfl "sub-01" "metrics").1⟩

/-- C8: with more than one segmentation file, the tissue entries written by
`compute_tissue_volumes` are those of the last file alone: every iteration
overwrites all three entries, so the counts of all earlier files are
discarded. -/
theorem compute_tissue_volumes_last_file_wins (pre : List NiftiImage)
    (hpre : pre ≠ []) (lastImg : NiftiImage) (sid dir k : String)
    (hk : k = "CSF" ∨ k = "GM" ∨ k = "WM") :
    (compute_tissue_volumes (pre ++ [lastImg]) sid dir).1.volumes k
      = (compute_tissue_volumes [lastImg] sid dir).1.volumes k := by
  rcases hk with rfl | rfl | rfl <;>
    simp only [compute_tissue_volumes, List.foldl_append, List.foldl_cons,
      List.foldl_nil]
  · rw [applySegFile_CSF, applySegFile_CSF]
  · rw [applySegFile_GM, applySegFile_GM]
  · rw [applySegFile_WM, applySegFile_WM]

/-- C3: the discovered subject list consists exactly of the names of
directories under the BIDS root matching the glob "sub-*" whose
anat/<subject>_T1w.nii.gz file exists, lexicographically sorted and without
duplicates; when the list is empty the script raises a RuntimeError, which
aborts it before the workflow connections are built. -/
theorem subject_discovery_spec (fs : FileSystem) (bids_root : String)
    (hnd : fs.rootEntries.Nodup) :
    (∀ s, s ∈ subjects fs bids_root ↔
        (s ∈ fs.rootEntries ∧ subGlobMatch s = true ∧ fs.isDir s = true
          ∧ fs.fileExists (t1wRelPath bids_root s) = true))
    ∧ (subjects fs bids_root).Sorted (· ≤ ·)
    ∧ (subjects fs bids_root).Nodup
    ∧ (discoverSubjects fs bids_root
        = Except.error "No BIDS subjects with T1w images found"
        ↔ subjects fs bids_root = [])
    ∧ (subjects fs bids_root = [] → ∀ which,
        pipeline_script fs which bids_root
          = Except.error "No BIDS subjects with T1w images found")
    ∧ (subjects fs bids_root ≠ [] →
        discoverSubjects fs bids_root = Except.ok (subjects fs bids_root)) := by
  refine ⟨?_, ?_, ?_, ?_, ?_, ?_⟩
  · intro s
    simp only [subjects, all_subjects, List.mem_filter,
      (List.perm_insertionSort (· ≤ ·)
        (fs.rootEntries.filter (fun n => subGlobMatch n && fs.isDir n))).mem_iff,
      Bool.and_eq_true]
    tauto
  · exact (List.sorted_insertionSort (· ≤ ·) _).filter _
  · exact (((List.perm_insertionSort (· ≤ ·) _).nodup_iff).mpr
      (hnd.filter _)).filter _
  · by_cases h : subjects fs bids_root = [] <;> simp [discoverSubjects, h]
  · intro h which
    simp [pipeline_script, discoverSubjects, h]
  · intro h
    simp [discoverSubjects, h]

theorem subject_discovery_spec_witness :
    (["sub-01", "notes.txt"] : List String).Nodup
    ∧ (StructuralPipeline.subjects
        ⟨["sub-01", "notes.txt"], fun n => n = "sub-01",
          fun p => p = "bids/sub-01/anat/sub-01_T1w.nii.gz", fun p => p⟩
        "bids").Sorted (· ≤ ·) :=
  ⟨by decide,
    (subject_discovery_spec
      ⟨["sub-01", "notes.txt"], fun n => n = "sub-01",
        fun p => p = "bids/sub-01/anat/sub-01_T1w.nii.gz", fun p => p⟩
      "bids" (by decide)).2.1⟩

/-- C6: `get_t1w_path` returns the resolved path of
<bids_root>/<subject_id>/anat/<subject_id>_T1w.nii.gz when that file exists,
and raises FileNotFoundError when it does not. -/
theorem get_t1w_path_spec (fs : FileSystem) (subject_id bids_root : String) :
    (fs.fileExists (t1wRelPath bids_root subject_id) = true →
        get_t1w_path fs subject_id bids_root
          = Except.ok (fs.resolve (t1wRelPath bids_root subject_id)))
    ∧ (fs.fileExists (t1wRelPath bids_root subject_id) = false →
        get_t1w_path fs subject_id bids_root
          = Except.error ("Missing T1w image for " ++ subject_id)) := by
  constructor <;> intro h <;> simp [get_t1w_path, h]

theorem get_t1w_path_spec_witness :
    (FileSystem.fileExists ⟨[], fun _ => false, fun _ => true, fun p => p ++ "!"⟩
        (StructuralPipeline.t1wRelPath "bids" "sub-01") = true)
    ∧ get_t1w_path ⟨[], fun _ => false, fun _ => true, fun p => p ++ "!"⟩
          "sub-01" "bids"
        = Except.ok (FileSystem.resolve ⟨[], fun _ => false, fun _ => true, fun p => p ++ "!"⟩
            (StructuralPipeline.t1wRelPath "bids" "sub-01")) :=
  ⟨rfl,
    (get_t1w_path_spec ⟨[], fun _ => false, fun _ => true, fun p => p ++ "!"⟩
      "sub-01" "bids").1 rfl⟩

/-- C2: each external-tool node (bet, fast, recon-all) is present in the
workflow exactly when its binary is found on the PATH, and the workflow holds
at most three external-tool nodes per subject. -/
theorem external_tools_gated (which : String → Option String) :
    (NodeId.bet ∈ wfNodes (connections (HAS_FSL_BET which) (HAS_FSL_FAST which)
          (HAS_FREESURFER which))
        ↔ HAS_FSL_BET which = true)
    ∧ (NodeId.fast ∈ wfNodes (connections (HAS_FSL_BET which) (HAS_FSL_FAST which)
          (HAS_FREESURFER which))
        ↔ HAS_FSL_FAST which = true)
    ∧ (NodeId.reconall ∈ wfNodes (connections (HAS_FSL_BET which) (HAS_FSL_FAST which)
          (HAS_FREESURFER which))
        ↔ HAS_FREESURFER which = true)
    ∧ externalCount (connections (HAS_FSL_BET which) (HAS_FSL_FAST which)
          (HAS_FREESURFER which)) ≤ 3 := by
  cases hb : HAS_FSL_BET which <;> cases hf : HAS_FSL_FAST which <;>
    cases hr : HAS_FREESURFER which <;> decide

theorem external_tools_gated_witness :
    NodeId.bet ∈ wfNodes (connections (HAS_FSL_BET (fun c => if c = "bet" then some "/usr/bin/bet" else none))
        (HAS_FSL_FAST (fun c => if c = "bet" then some "/usr/bin/bet" else none))
        (HAS_FREESURFER (fun c => if c = "bet" then some "/usr/bin/bet" else none)))
      ↔ HAS_FSL_BET (fun c => if c = "bet" then some "/usr/bin/bet" else none) = true :=
  (external_tools_gated (fun c => if c = "bet" then some "/usr/bin/bet" else none)).1

/-- C4: the static wiring of the workflow: when fast is present its input
comes from bet when bet is present and from the T1w resolver otherwise, the
fast-to-volume-extraction seg_files connection exists exactly when fast is
present, and the T1w resolver and volume-extraction nodes receive subject_id
from the input node unconditionally. -/
theorem wiring_static (hb hf hr : Bool) :
    (hf = true → hb = true →
        (⟨.bet, .fast, "out_file", "in_files"⟩ : Connection) ∈ connections hb hf hr
        ∧ (⟨.t1w_resolver, .fast, "t1w", "in_files"⟩ : Connection) ∉ connections hb hf hr)
    ∧ (hf = true → hb = false →
        (⟨.t1w_resolver, .fast, "t1w", "in_files"⟩ : Connection) ∈ connections hb hf hr
        ∧ (⟨.bet, .fast, "out_file", "in_files"⟩ : Connection) ∉ connections hb hf hr)
    ∧ ((⟨.fast, .volume_extraction, "partial_volume_files", "seg_files"⟩ : Connection)
          ∈ connections hb hf hr ↔ hf = true)
    ∧ (⟨.inputnode, .t1w_resolver, "subject_id", "subject_id"⟩ : Connection)
        ∈ connections hb hf hr
    ∧ (⟨.inputnode, .volume_extraction, "subject_id", "subject_id"⟩ : Connection)
        ∈ connections hb hf hr := by
  cases hb <;> cases hf <;> cases hr <;> decide

theorem wiring_static_witness :
    (true = true) ∧ (false = false)
    ∧ (⟨.t1w_resolver, .fast, "t1w", "in_files"⟩ : Connection) ∈ connections false true false
    ∧ (⟨.bet, .fast, "out_file", "in_files"⟩ : Connection) ∉ connections false true false :=
  ⟨rfl, rfl, (wiring_static false true false).2.1 rfl rfl⟩

theorem compute_tissue_volumes_last_file_wins_witness :
    ([⟨[0, 0, 0], [1, 1]⟩] : List NiftiImage) ≠ []
    ∧ ("GM" = "CSF" ∨ "GM" = "GM" ∨ "GM" = "WM")
    ∧ (compute_tissue_volumes ([⟨[0, 0, 0], [1, 1]⟩] ++ [⟨[1, 1], [2, 2]⟩])
          "sub-01" "metrics").1.volumes "GM"
        = (compute_tissue_volumes [⟨[1, 1], [2, 2]⟩] "sub-01" "metrics").1.volumes "GM" :=
  ⟨by simp, Or.inr (Or.inl rfl),
    compute_tissue_volumes_last_file_wins [⟨[0, 0, 0], [1, 1]⟩] (by simp)
      ⟨[1, 1], [2, 2]⟩ "sub-01" "metrics" "GM" (Or.inr (Or.inl rfl))⟩

end StructuralPipeline

namespace SummarizeDataset

theorem foldl_append_eq_map {α β : Type} (f : α → β) (l : List α) :
    ∀ acc : List β, l.foldl (fun a r => a ++ [f r]) acc = acc ++ l.map f := by
  induction l with
  | nil => intro acc; simp
  | cons a t ih => intro acc; simp [ih]

theorem written_rows_eq_map (fs : SummaryFS) (hp : fs.participantsExists = true)
    (out : List SummaryRow)
    (hout : (summarize_dataset fs).writtenCsv = some out) :
    out = fs.participantsRows.map (summarizeRow fs.metrics) := by
  simp only [summarize_dataset, hp, if_true, Option.some.injEq,
    foldl_append_eq_map, List.nil_append] at hout
  exact hout.symm

/-- C5: for every participants table, the summary script writes one output
row per participant row, in order: the row carries the participant id, the
age, sex and dominant_hand columns defaulted to "n/a" when absent, the
metrics_exists flag, and, when the metrics TSV of the subject exists and
parses, the CSF, GM and WM values of its first row. -/
theorem summary_rows_spec (fs : SummaryFS) (hp : fs.participantsExists = true)
    (out : List SummaryRow)
    (hout : (summarize_dataset fs).writtenCsv = some out) :
    (summarize_dataset fs).writtenCsv.isSome = true
    ∧ out.length = fs.participantsRows.length
    ∧ ∀ (i : Nat) (p : ParticipantRow) (r : SummaryRow),
        fs.participantsRows[i]? = some p → out[i]? = some r →
        (r.participant_id = p.participant_id
          ∧ r.age = p.age.getD "n/a"
          ∧ r.sex = p.sex.getD "n/a"
          ∧ r.dominant_hand = p.dominant_hand.getD "n/a"
          ∧ r.metrics_exists = (fs.metrics p.participant_id).isSome
          ∧ ∀ m, fs.metrics p.participant_id = some (Except.ok m) →
              (r.CSF = MetricCell.val m.CSF ∧ r.GM = MetricCell.val m.GM
                ∧ r.WM = MetricCell.val m.WM)) := by
  have hmap := written_rows_eq_map fs hp out hout
  refine ⟨by simp [hout], by rw [hmap]; simp, ?_⟩
  intro i p r hpi hri
  rw [hmap, List.getElem?_map, hpi, Option.map_some'] at hri
  obtain rfl : summarizeRow fs.metrics p = r := by
    exact Option.some.inj hri
  cases hm : fs.metrics p.participant_id with
  | none => simp [summarizeRow, hm]
  | some e =>
    cases e with
    | ok m => simp [summarizeRow, hm]
    | error u => simp [summarizeRow, hm]

theorem summary_rows_spec_witness :
    (SummaryFS.participantsExists
        ⟨true, [⟨"sub-01", some "30", none, none⟩],
          fun _ => some (Except.ok ⟨some 1, some 2, none⟩)⟩ = true)
    ∧ ((summarize_dataset
          ⟨true, [⟨"sub-01", some "30", none, none⟩],
            fun _ => some (Except.ok ⟨some 1, some 2, none⟩)⟩).writtenCsv
        = some [summarizeRow (fun _ => some (Except.ok ⟨some 1, some 2, none⟩))
            ⟨"sub-01", some "30", none, none⟩])
    ∧ (summarize_dataset
          ⟨true, [⟨"sub-01", some "30", none, none⟩],
            fun _ => some (Except.ok ⟨some 1, some 2, none⟩)⟩).writtenCsv.isSome = true :=
  ⟨rfl, rfl,
    (summary_rows_spec
      ⟨true, [⟨"sub-01", some "30", none, none⟩],
        fun _ => some (Except.ok ⟨some 1, some 2, none⟩)⟩ rfl
      [summarizeRow (fun _ => some (Except.ok ⟨some 1, some 2, none⟩))
        ⟨"sub-01", some "30", none, none⟩] rfl).1⟩

/-- C7: the summary script raises FileNotFoundError exactly when
participants.tsv is absent; in that case no summary CSV is written, while the
summary directory is created before the check in every run. -/
theorem summary_missing_participants_spec (fs : SummaryFS) :
    ((summarize_dataset fs).raisedFileNotFound = true ↔ fs.participantsExists = false)
    ∧ (summarize_dataset fs).summaryDirCreated = true
    ∧ (fs.participantsExists = false → (summarize_dataset fs).writtenCsv = none) := by
  cases hp : fs.participantsExists <;> simp [summarize_dataset, hp]

theorem summary_missing_participants_spec_witness :
    (SummaryFS.participantsExists ⟨false, [], fun _ => none⟩ = false)
    ∧ (summarize_dataset ⟨false, [], fun _ => none⟩).writtenCsv = none :=
  ⟨rfl, (summary_missing_participants_spec ⟨false, [], fun _ => none⟩).2.2 rfl⟩

/-- C9: in every row of the written summary, qc_pass equals metrics_exists,
and when metrics_exists is false the CSF, GM and WM keys are absent from the
row. -/
theorem qc_pass_iff_metrics_exists (fs : SummaryFS) (out : List SummaryRow)
    (hout : (summarize_dataset fs).writtenCsv = some out) (r : SummaryRow)
    (hr : r ∈ out) :
    r.qc_pass = r.metrics_exists
    ∧ (r.metrics_exists = false →
        r.CSF = MetricCell.absent ∧ r.GM = MetricCell.absent
          ∧ r.WM = MetricCell.absent) := by
  have hp : fs.participantsExists = true := by
    cases hp : fs.participantsExists
    · simp [summarize_dataset, hp] at hout
    · rfl
  have hmap := written_rows_eq_map fs hp out hout
  subst hmap
  obtain ⟨p, hpmem, rfl⟩ := List.mem_map.mp hr
  cases hm : fs.metrics p.participant_id with
  | none => simp [summarizeRow, hm]
  | some e => cases e <;> simp [summarizeRow, hm]

theorem qc_pass_iff_metrics_exists_witness :
    ((summarize_dataset ⟨true, [⟨"sub-01", none, none, none⟩], fun _ => none⟩).writtenCsv
        = some [summarizeRow (fun _ => none) ⟨"sub-01", none, none, none⟩])
    ∧ (summarizeRow (fun _ => none) ⟨"sub-01", none, none, none⟩
        ∈ [summarizeRow (fun _ => none) ⟨"sub-01", none, none, none⟩])
    ∧ (summarizeRow (fun _ => none) ⟨"sub-01", none, none, none⟩).qc_pass
        = (summarizeRow (fun _ => none) ⟨"sub-01", none, none, none⟩).metrics_exists :=
  ⟨rfl, by simp,
    (qc_pass_iff_metrics_exists ⟨true, [⟨"sub-01", none, none, none⟩], fun _ => none⟩
      [summarizeRow (fun _ => none) ⟨"sub-01", none, none, none⟩] rfl
      (summarizeRow (fun _ => none) ⟨"sub-01", none, none, none⟩) (by simp)).1⟩

/-- C10: when a metrics TSV exists but reading or parsing it raises, the
subject gets "n/a" in its CSF, GM and WM fields instead of a propagated
exception, and the script still writes the summary CSV with one row per
participant. -/
theorem metrics_parse_error_handled (fs : SummaryFS)
    (hp : fs.participantsExists = true) (out : List SummaryRow)
    (hout : (summarize_dataset fs).writtenCsv = some out) :
    out.length = fs.participantsRows.length
    ∧ ∀ (i : Nat) (p : ParticipantRow) (r : SummaryRow),
        fs.participantsRows[i]? = some p → out[i]? = some r →
        fs.metrics p.participant_id = some (Except.error ()) →
        (r.CSF = MetricCell.na ∧ r.GM = MetricCell.na ∧ r.WM = MetricCell.na) := by
  have hmap := written_rows_eq_map fs hp out hout
  refine ⟨by rw [hmap]; simp, ?_⟩
  intro i p r hpi hri hm
  rw [hmap, List.getElem?_map, hpi, Option.map_some'] at hri
  obtain rfl : summarizeRow fs.metrics p = r := Option.some.inj hri
  simp [summarizeRow, hm]

theorem metrics_parse_error_handled_witness :
    (SummaryFS.participantsExists
        ⟨true, [⟨"sub-01", none, none, none⟩], fun _ => some (Except.error ())⟩ = true)
    ∧ ((summarize_dataset
          ⟨true, [⟨"sub-01", none, none, none⟩], fun _ => some (Except.error ())⟩).writtenCsv
        = some [summarizeRow (fun _ => some (Except.error ()))
            ⟨"sub-01", none, none, none⟩])
    ∧ [summarizeRow (fun _ => some (Except.error ())) ⟨"sub-01", none, none, none⟩].length
        = (SummaryFS.participantsRows
            ⟨true, [⟨"sub-01", none, none, none⟩], fun _ => some (Except.error ())⟩).length :=
  ⟨rfl, rfl,
    (metrics_parse_error_handled
      ⟨true, [⟨"sub-01", none, none, none⟩], fun _ => some (Except.error ())⟩ rfl
      [summarizeRow (fun _ => some (Except.error ())) ⟨"sub-01", none, none, none⟩]
      rfl).1⟩

end SummarizeDataset
